import Mathlib

/-!
Verification development for the realtime chat core of this repository:
the Redis-backed payload store (apps/chat/services.py), the conversation
directory (apps/chat/models.py) and the websocket gateway
(apps/chat/consumers.py), translated into a shallow embedding.

Conventions of the embedding:
* Redis is modelled as explicit finite maps (association lists) for
  string keys and sorted-set keys, together with a logical clock in
  seconds.  A sorted set is kept ordered ascending by (score, member),
  matching the invariant Redis maintains internally; ZREVRANGE reads an
  inclusive slice of the reversed order with Redis's negative-index
  convention.
* `uuid.uuid4()` is modelled as a supply of fresh opaque ids drawn from
  a counter held in the store state.
* `datetime.utcnow()` is modelled by the logical clock; the clock
  advances by one after each store operation, modelling that real time
  strictly increases across synchronous calls.
* Django model instances are records; Django's `==` on model instances
  compares primary keys, so user comparisons compare the `id` field.
* The channel layer is a map from group names to the list of joined
  channel names; `group_send` delivers to exactly the current members.
-/

namespace ChatCore

/-- Association-list lookup, modelling a key-value lookup in Redis or a
primary-key lookup in the database. -/
def lookupA {β : Type} : List (String × β) → String → Option β
  | [], _ => none
  | (k, v) :: rest, key => if k = key then some v else lookupA rest key

/-- Association-list update-or-add (Redis SET/SETEX overwrite semantics). -/
def insertA {β : Type} : List (String × β) → String → β → List (String × β)
  | [], key, v => [(key, v)]
  | (k, w) :: rest, key, v =>
      if k = key then (key, v) :: rest else (k, w) :: insertA rest key v

/-- Association-list key removal (Redis DEL). -/
def eraseA {β : Type} (l : List (String × β)) (key : String) : List (String × β) :=
  l.filter (fun e => e.1 != key)

/-- A message payload exactly as `store_message` serializes it into Redis
(services.py lines 25-32): id, conversation_id, sender_id, receiver_id,
content and the store timestamp. -/
structure StoredMessage where
  id : String
  conversation_id : String
  sender_id : String
  receiver_id : String
  content : String
  timestamp : Nat
deriving DecidableEq

/-- The state of the Redis database used by `RedisMessageService`:
`messages` holds the `message:{id}` string keys with their payload and
absolute expiry time, `index` holds the `conversation:{id}:messages`
sorted sets (member, score), `indexExpiry` their absolute expiry times,
`clock` is the current time in seconds and `nextId` the fresh-uuid
supply. -/
structure RedisState where
  messages : List (String × (StoredMessage × Nat))
  index : List (String × List (String × Nat))
  indexExpiry : List (String × Nat)
  clock : Nat
  nextId : Nat
deriving DecidableEq

/-- `self.message_ttl = 86400 * 30` (services.py line 16). -/
def messageTTL : Nat := 86400 * 30

/-- Fresh opaque id, modelling `str(uuid.uuid4())`. -/
def genId (n : Nat) : String := "uuid-" ++ toString n

/-- Insert one (member, score) pair into a sorted set held ascending by
(score, then member), the order Redis maintains for ZADD. -/
def zinsert (x : String × Nat) : List (String × Nat) → List (String × Nat)
  | [] => [x]
  | y :: ys =>
      if x.2 < y.2 ∨ (x.2 = y.2 ∧ x.1 ≤ y.1) then x :: y :: ys
      else y :: zinsert x ys

/-- Redis ZADD: update the member's score if present, otherwise add it,
keeping the set ordered. -/
def zadd (member : String) (score : Nat) (l : List (String × Nat)) :
    List (String × Nat) :=
  zinsert (member, score) (l.filter (fun e => e.1 != member))

/-- `store_message` (services.py lines 18-45): generate a fresh id, SETEX
the serialized payload under `message:{id}` with TTL, ZADD the id to the
conversation's sorted set with score = now, and refresh the sorted set's
own expiry (EXPIRE) to the same TTL.  Returns the fresh message id. -/
def store_message (st : RedisState)
    (conversation_id sender_id receiver_id content : String) :
    String × RedisState :=
  let message_id := genId st.nextId
  let payload : StoredMessage :=
    { id := message_id, conversation_id := conversation_id,
      sender_id := sender_id, receiver_id := receiver_id,
      content := content, timestamp := st.clock }
  let entries := (lookupA st.index conversation_id).getD []
  (message_id,
    { messages := insertA st.messages message_id (payload, st.clock + messageTTL)
      index := insertA st.index conversation_id (zadd message_id st.clock entries)
      indexExpiry := insertA st.indexExpiry conversation_id (st.clock + messageTTL)
      clock := st.clock + 1
      nextId := st.nextId + 1 })

/-- `get_message` (services.py lines 47-54): GET `message:{id}`; an absent
key and an expired key are indistinguishable, both give `none`. -/
def get_message (st : RedisState) (message_id : String) : Option StoredMessage :=
  match lookupA st.messages message_id with
  | none => none
  | some pe => if st.clock < pe.2 then some pe.1 else none

/-- Raw entries of a conversation's sorted set, ignoring key expiry. -/
def idxEntries (st : RedisState) (conversation_id : String) :
    List (String × Nat) :=
  (lookupA st.index conversation_id).getD []

/-- Entries of a conversation's sorted set as Redis reports them: an
expired sorted-set key has been dropped, so it reads as empty. -/
def liveIndex (st : RedisState) (conversation_id : String) :
    List (String × Nat) :=
  match lookupA st.indexExpiry conversation_id with
  | none => idxEntries st conversation_id
  | some expiresAt =>
      if st.clock < expiresAt then idxEntries st conversation_id else []

/-- Normalize a Redis range index: negative indices count from the end. -/
def normIdx (n : Nat) (i : Int) : Int := if i < 0 then n + i else i

/-- Redis ZREVRANGE key start stop: members ordered by highest (score,
member) first, inclusive slice between the normalized indices, with
clamping; an inverted range gives the empty list. -/
def zrevrange (l : List (String × Nat)) (start stop : Int) :
    List (String × Nat) :=
  let s : Int := max (normIdx l.length start) 0
  let e : Int := min (normIdx l.length stop) ((l.length : Int) - 1)
  if e < s then []
  else (l.reverse.drop s.toNat).take ((e - s + 1).toNat)

/-- `get_chat_messages` (services.py lines 56-71): ZREVRANGE the
conversation's sorted set over positions offset .. offset+limit-1, then
look every id up with `get_message`, silently dropping ids whose payload
no longer resolves. -/
def get_chat_messages (st : RedisState) (conversation_id : String)
    (limit offset : Nat) : List StoredMessage :=
  let ids := zrevrange (liveIndex st conversation_id)
    (offset : Int) ((offset : Int) + (limit : Int) - 1)
  ids.filterMap (fun e => get_message st e.1)

/-- `delete_message` (services.py lines 78-93): resolve the payload; if it
is gone return false, otherwise DEL the payload key and ZREM the id from
its conversation's sorted set. -/
def delete_message (st : RedisState) (message_id : String) :
    Bool × RedisState :=
  match get_message st message_id with
  | none => (false, st)
  | some payload =>
      let entries := (lookupA st.index payload.conversation_id).getD []
      (true,
        { st with
          messages := eraseA st.messages message_id
          index := insertA st.index payload.conversation_id
            (entries.filter (fun e => e.1 != message_id)) })

/-- Let the clock advance by `d` seconds with no other change. -/
def advanceClock (st : RedisState) (d : Nat) : RedisState :=
  { st with clock := st.clock + d }

/-- A fresh, empty Redis database. -/
def emptyRedis : RedisState :=
  { messages := [], index := [], indexExpiry := [], clock := 0, nextId := 0 }

/-- A row of the custom `User` model (apps/accounts/models.py) restricted
to the fields the chat core reads.  Primary keys are opaque ids with a
fixed total order; they are modelled as naturals. -/
structure UserRec where
  id : Nat
  email : String
  first_name : String
  last_name : String
  username : String
  is_verified : Bool
deriving DecidableEq

/-- The `full_name` property of the `User` model. -/
def full_name (u : UserRec) : String := u.first_name ++ " " ++ u.last_name

/-- A row of the `Conversation` model (apps/chat/models.py lines 9-48). -/
structure Conversation where
  id : String
  user1 : UserRec
  user2 : UserRec
  created_at : Nat
  updated_at : Nat
deriving DecidableEq

/-- The failure of `Conversation.get_or_create_conversation` on a self
pair: the `no_self_conversation` CheckConstraint (models.py lines 25-29)
rejects any insert with user1 = user2, the spec's SelfConversationError. -/
inductive ConvError where
  | selfConversation
deriving DecidableEq

/-- `Conversation.get_or_create_conversation` (models.py lines 34-42):
swap the pair when `user1.id > user2.id` so the smaller id comes first,
then `get_or_create` keyed on the ordered pair; a row that would violate
the `no_self_conversation` constraint is rejected by the database and no
row is created.  A genuinely new row receives a fresh id. -/
def get_or_create_conversation (db : List Conversation) (u1 u2 : UserRec) :
    Except ConvError (Conversation × Bool) × List Conversation :=
  let a := if u1.id > u2.id then u2 else u1
  let b := if u1.id > u2.id then u1 else u2
  match db.find? (fun c => c.user1.id == a.id && c.user2.id == b.id) with
  | some c => (.ok (c, false), db)
  | none =>
      if a.id = b.id then (.error .selfConversation, db)
      else
        let c : Conversation :=
          { id := "conv-" ++ toString db.length, user1 := a, user2 := b,
            created_at := 0, updated_at := 0 }
        (.ok (c, true), db ++ [c])

/-- A row of the `Message` metadata model (apps/chat/models.py lines
51-74): content lives in Redis, referenced through `message_id`. -/
structure MessageMeta where
  conversation_id : String
  sender_id : Nat
  receiver_id : Nat
  message_id : String
  is_read : Bool
  is_deleted : Bool
deriving DecidableEq

/-- The shared persistent state the consumer operates on: the relational
conversation and message-metadata tables plus the Redis store. -/
structure ServerState where
  conversations : List Conversation
  messagesMeta : List MessageMeta
  redis : RedisState
deriving DecidableEq

/-- An event published to a channel-layer group, one constructor per
`type` value that `group_send` is called with in consumers.py. -/
inductive GroupEvent where
  | new_message (conversation_id : String) (message : StoredMessage)
  | user_typing (conversation_id user_id user_name : String)
  | user_stop_typing (conversation_id user_id : String)
  | user_online (user_id email full_name username : String) (is_verified : Bool)
  | user_offline (user_id : String)
deriving DecidableEq

/-- A frame the consumer sends directly back on the receiving connection
with `self.send`; on the inbound path these are exactly the error frames. -/
inductive OutFrame where
  | errorFrame (error : String)
deriving DecidableEq

/-- The observable outcome of one inbound-frame handler invocation:
frames sent back on this connection, events published to groups, the
updated shared state, and whether the handler closed the connection. -/
structure RxResult where
  frames : List OutFrame
  groupSends : List (String × GroupEvent)
  state : ServerState
  closed : Bool
deriving DecidableEq

/-- `get_conversation` (consumers.py lines 257-266): primary-key lookup,
`none` on `DoesNotExist`. -/
def get_conversation (st : ServerState) (conversation_id : String) :
    Option Conversation :=
  st.conversations.find? (fun c => c.id == conversation_id)

/-- `is_user_in_conversation` (consumers.py lines 268-272); Django `==`
on model instances compares primary keys. -/
def is_user_in_conversation (c : Conversation) (u : UserRec) : Bool :=
  c.user1.id == u.id || c.user2.id == u.id

/-- `get_other_user` (consumers.py lines 274-281): `user2` when the given
user is `user1`, otherwise `user1`. -/
def get_other_user (c : Conversation) (u : UserRec) : UserRec :=
  if c.user1.id == u.id then c.user2 else c.user1

/-- Python truthiness of an optional string field read with `data.get`:
a missing field (`None`) and the empty string are both falsy. -/
def truthy : Option String → Bool
  | none => false
  | some s => s ≠ ""

/-- The group name `f"user_{user_id}"`. -/
def userGroup (uid : Nat) : String := "user_" ++ toString uid

/-- `update_conversation_timestamp` (consumers.py lines 330-334):
`conversation.save()` bumps `updated_at` (auto_now) to the current time. -/
def touchConversation (db : List Conversation) (conversation_id : String)
    (now : Nat) : List Conversation :=
  db.map (fun c => if c.id == conversation_id then { c with updated_at := now } else c)

/-- `handle_send_message` (consumers.py lines 98-142): validate the two
fields for presence and truthiness, resolve the conversation, check the
sender is a participant, then `create_message` (Redis `store_message`,
metadata row, conversation touch) and publish the `new_message` event to
the sender's and the other participant's user groups.  Each failed check
sends one error frame back and changes nothing. -/
def handle_send_message (st : ServerState) (sender : UserRec)
    (conversation_id content : Option String) : RxResult :=
  if truthy conversation_id && truthy content then
    match get_conversation st (conversation_id.getD "") with
    | none =>
        { frames := [.errorFrame "Conversation not found"], groupSends := [],
          state := st, closed := false }
    | some conv =>
        if is_user_in_conversation conv sender then
          let other := get_other_user conv sender
          let put := store_message st.redis conv.id (toString sender.id)
            (toString other.id) (content.getD "")
          let meta : MessageMeta :=
            { conversation_id := conv.id, sender_id := sender.id,
              receiver_id := other.id, message_id := put.1,
              is_read := false, is_deleted := false }
          let view : StoredMessage :=
            { id := put.1, conversation_id := conv.id,
              sender_id := toString sender.id, receiver_id := toString other.id,
              content := content.getD "", timestamp := put.2.clock }
          { frames := []
            groupSends := [(userGroup sender.id, .new_message conv.id view),
                           (userGroup other.id, .new_message conv.id view)]
            state :=
              { conversations := touchConversation st.conversations conv.id put.2.clock
                messagesMeta := st.messagesMeta ++ [meta]
                redis := put.2 }
            closed := false }
        else
          { frames := [.errorFrame "Access denied"], groupSends := [],
            state := st, closed := false }
  else
    { frames := [.errorFrame "Missing conversation_id or content"],
      groupSends := [], state := st, closed := false }

/-- `handle_typing` (consumers.py lines 144-164): return silently when the
conversation id is falsy or unknown; otherwise publish `user_typing` to
the group of `get_other_user(conversation, self.user)`.  No participation
check is performed and nothing is ever sent back on this connection. -/
def handle_typing (st : ServerState) (sender : UserRec)
    (conversation_id : Option String) : RxResult :=
  if truthy conversation_id then
    match get_conversation st (conversation_id.getD "") with
    | none => { frames := [], groupSends := [], state := st, closed := false }
    | some conv =>
        let other := get_other_user conv sender
        { frames := []
          groupSends := [(userGroup other.id,
            .user_typing (conversation_id.getD "") (toString sender.id)
              (full_name sender))]
          state := st, closed := false }
  else { frames := [], groupSends := [], state := st, closed := false }

/-- `handle_stop_typing` (consumers.py lines 166-185): same flow as
`handle_typing` with a `user_stop_typing` event and no user_name field. -/
def handle_stop_typing (st : ServerState) (sender : UserRec)
    (conversation_id : Option String) : RxResult :=
  if truthy conversation_id then
    match get_conversation st (conversation_id.getD "") with
    | none => { frames := [], groupSends := [], state := st, closed := false }
    | some conv =>
        let other := get_other_user conv sender
        { frames := []
          groupSends := [(userGroup other.id,
            .user_stop_typing (conversation_id.getD "") (toString sender.id))]
          state := st, closed := false }
  else { frames := [], groupSends := [], state := st, closed := false }

/-- One inbound websocket frame after the JSON stage: either it failed to
parse at all, or it parsed to an object whose `type`, `conversation_id`
and `content` fields were read with `data.get` (absent fields `none`). -/
inductive InFrame where
  | malformed
  | frame (ty conversation_id content : Option String)

/-- `receive` (consumers.py lines 71-96): a JSON parse failure sends the
`Invalid JSON` error frame back; a parsed frame dispatches on its `type`
tag to the three handlers; any other tag is only logged and nothing is
sent.  `receive` never closes the connection. -/
def receive (st : ServerState) (sender : UserRec) : InFrame → RxResult
  | .malformed =>
      { frames := [.errorFrame "Invalid JSON"], groupSends := [],
        state := st, closed := false }
  | .frame ty conversation_id content =>
      if ty == some "send_message" then
        handle_send_message st sender conversation_id content
      else if ty == some "typing" then
        handle_typing st sender conversation_id
      else if ty == some "stop_typing" then
        handle_stop_typing st sender conversation_id
      else { frames := [], groupSends := [], state := st, closed := false }

/-- The channel layer's group table: group name to joined channel names.
Groups exist implicitly, an unknown group has no members. -/
structure GatewayGroups where
  groups : List (String × List String)
deriving DecidableEq

/-- Current members of a group. -/
def group_members (g : GatewayGroups) (name : String) : List String :=
  (lookupA g.groups name).getD []

/-- `channel_layer.group_add`: add the channel to the group. -/
def group_add (g : GatewayGroups) (name channel : String) : GatewayGroups :=
  { groups := insertA g.groups name (group_members g name ++ [channel]) }

/-- The observable outcome of `ChatConsumer.connect` for one session:
the updated group table, whether the handshake was accepted, the groups
this session joined, the events it published, and whether it closed. -/
structure ConnectResult where
  gateway : GatewayGroups
  accepted : Bool
  joinedGroups : List String
  groupSends : List (String × GroupEvent)
  closed : Bool
deriving DecidableEq

/-- `ChatConsumer.connect` (consumers.py lines 17-53): close without a
frame when the scope user is anonymous or its id differs from the URL
user id; otherwise `group_add` the session to `user_{user_id}` only,
accept, and `group_send` a `user_online` event carrying the minimal user
profile (`get_user_data`) to the group named `online_users`. -/
def connect (g : GatewayGroups) (scope_user : Option UserRec)
    (url_user_id channel : String) : ConnectResult :=
  match scope_user with
  | none =>
      { gateway := g, accepted := false, joinedGroups := [],
        groupSends := [], closed := true }
  | some u =>
      if toString u.id ≠ url_user_id then
        { gateway := g, accepted := false, joinedGroups := [],
          groupSends := [], closed := true }
      else
        { gateway := group_add g (userGroup u.id) channel
          accepted := true
          joinedGroups := [userGroup u.id]
          groupSends := [("online_users",
            .user_online (toString u.id) u.email (full_name u) u.username
              u.is_verified)]
          closed := false }

/-- `channel_layer.group_send` fanout: each published (group, event) pair
is delivered to every channel currently joined to that group. -/
def deliveries (g : GatewayGroups) (sends : List (String × GroupEvent)) :
    List (String × GroupEvent) :=
  sends.flatMap (fun s => (group_members g s.1).map (fun ch => (ch, s.2)))

/-- Ascending (score, member) order of a conversation index, part of the
sorted-set representation invariant. -/
def scoreSorted (l : List (String × Nat)) : Prop :=
  l.Pairwise (fun a b => a.2 ≤ b.2)

/-- An index entry is linked when its payload key is present with the
expiry `store_message` gave it, namely score + TTL. -/
def entryLinkedB (st : RedisState) (e : String × Nat) : Bool :=
  match lookupA st.messages e.1 with
  | some pe => pe.2 == e.2 + messageTTL
  | none => false

/-- Representation invariant of one conversation index, as established by
`store_message` and preserved by `delete_message`: the sorted set is
ordered by score and every entry's payload key carries expiry
score + TTL. -/
def IndexInv (st : RedisState) (conversation_id : String) : Prop :=
  scoreSorted (idxEntries st conversation_id) ∧
  ∀ e ∈ idxEntries st conversation_id, entryLinkedB st e = true

theorem lookupA_insertA_self {β : Type} (l : List (String × β)) (k : String)
    (v : β) : lookupA (insertA l k v) k = some v := by
  induction l with
  | nil => simp [insertA, lookupA]
  | cons hd tl ih =>
      obtain ⟨k', v'⟩ := hd
      by_cases h : k' = k
      · simp [insertA, h, lookupA]
      · simp [insertA, h, lookupA, ih]

theorem liveIndex_eq_or (st : RedisState) (c : String) :
    liveIndex st c = idxEntries st c ∨ liveIndex st c = [] := by
  unfold liveIndex
  cases lookupA st.indexExpiry c with
  | none => exact Or.inl rfl
  | some e =>
      by_cases h : st.clock < e
      · exact Or.inl (by simp [h])
      · exact Or.inr (by simp [h])

theorem get_message_isSome_iff (st : RedisState) (e : String × Nat)
    (h : entryLinkedB st e = true) :
    (get_message st e.1).isSome = true ↔ st.clock < e.2 + messageTTL := by
  unfold entryLinkedB at h
  unfold get_message
  cases hl : lookupA st.messages e.1 with
  | none => rw [hl] at h; simp at h
  | some pe =>
      rw [hl] at h
      dsimp only at h ⊢
      have hpe : pe.2 = e.2 + messageTTL := beq_iff_eq.mp h
      rw [hpe]
      by_cases hc : st.clock < e.2 + messageTTL <;> simp [hc]

theorem length_filterMap_take {α β : Type} (g : α → Option β)
    (R : α → α → Prop) :
    ∀ (l : List α) (k : Nat), l.Pairwise R →
      (∀ a ∈ l, ∀ b ∈ l, R a b → (g b).isSome = true → (g a).isSome = true) →
      k ≤ l.countP (fun a => (g a).isSome) →
      ((l.take k).filterMap g).length = k := by
  intro l
  induction l with
  | nil =>
      intro k _ _ hk
      simp only [List.countP_nil, Nat.le_zero] at hk
      subst hk; simp
  | cons a t ih =>
      intro k hp hmono hk
      obtain ⟨ha, ht⟩ := List.pairwise_cons.mp hp
      have hmono' : ∀ x ∈ t, ∀ y ∈ t, R x y →
          (g y).isSome = true → (g x).isSome = true := by
        intro x hx y hy
        exact hmono x (List.mem_cons_of_mem _ hx) y (List.mem_cons_of_mem _ hy)
      match k with
      | 0 => simp
      | Nat.succ k =>
          cases hga : g a with
          | some b =>
              rw [List.countP_cons] at hk
              simp [hga] at hk
              have hk' : k ≤ t.countP (fun x => (g x).isSome) := by omega
              have := ih k ht hmono' hk'
              simp [List.take_succ_cons, List.filterMap_cons, hga, this]
          | none =>
              exfalso
              have hz : t.countP (fun x => (g x).isSome) = 0 := by
                apply List.countP_eq_zero.mpr
                intro x hx hsome
                have := hmono a (List.mem_cons_self a t) x
                  (List.mem_cons_of_mem _ hx) (ha x hx) hsome
                rw [hga] at this
                simp at this
              rw [List.countP_cons] at hk
              simp [hga, hz] at hk

theorem zrevrange_natRange (l : List (String × Nat)) (offset limit : Nat)
    (hlim : 1 ≤ limit) (ho : offset < l.length) :
    zrevrange l (offset : Int) ((offset : Int) + (limit : Int) - 1)
      = (l.reverse.drop offset).take (min limit (l.length - offset)) := by
  simp only [zrevrange, normIdx]
  have h1 : ¬ ((offset : Int) < 0) := by omega
  have h2 : ¬ ((offset : Int) + (limit : Int) - 1 < 0) := by omega
  rw [if_neg h1, if_neg h2]
  have hmax : max (offset : Int) 0 = (offset : Int) := by omega
  rw [hmax]
  have hcond : ¬ (min ((offset : Int) + (limit : Int) - 1)
      ((l.length : Int) - 1) < (offset : Int)) := by omega
  rw [if_neg hcond]
  have ht : ((min ((offset : Int) + (limit : Int) - 1) ((l.length : Int) - 1))
      - (offset : Int) + 1).toNat = min limit (l.length - offset) := by omega
  rw [ht, Int.toNat_natCast]

/-- C6: for every conversation, `get_chat_messages conversationId limit
offset` returns a most-recent-first page in which index entries whose
payload has expired or been deleted are silently skipped, and the page
contains `limit` live payloads whenever at least that many exist past the
offset.  The index invariant holds on every reachable store: entries are
score-sorted and every entry's payload expiry is score + TTL, so dead
entries always form the oldest suffix and a window that should be full is
full. -/
theorem get_chat_messages_full_page (st : RedisState) (cid : String)
    (limit offset : Nat) (hlim : 1 ≤ limit) (hinv : IndexInv st cid)
    (hcount : limit ≤ ((liveIndex st cid).reverse.drop offset).countP
      (fun e => (get_message st e.1).isSome)) :
    (get_chat_messages st cid limit offset).length = limit := by
  rcases liveIndex_eq_or st cid with hL | hL
  case inr =>
      rw [hL] at hcount
      simp at hcount
      omega
  case inl =>
      have hwin : limit ≤ ((liveIndex st cid).reverse.drop offset).length :=
        le_trans hcount (List.countP_le_length _)
      rw [List.length_drop, List.length_reverse] at hwin
      have hlen : offset < (liveIndex st cid).length := by omega
      unfold get_chat_messages
      rw [zrevrange_natRange (liveIndex st cid) offset limit hlim hlen]
      have hmin : min limit ((liveIndex st cid).length - offset) = limit := by
        omega
      rw [hmin]
      have hsorted : ((liveIndex st cid).reverse.drop offset).Pairwise
          (fun a b : String × Nat => b.2 ≤ a.2) := by
        have h1 : (liveIndex st cid).Pairwise
            (fun a b : String × Nat => a.2 ≤ b.2) := by
          rw [hL]; exact hinv.1
        have h2 : (liveIndex st cid).reverse.Pairwise
            (fun a b : String × Nat => b.2 ≤ a.2) :=
          List.pairwise_reverse.mpr h1
        exact h2.sublist (List.drop_sublist _ _)
      apply length_filterMap_take (fun e => get_message st e.1)
        (fun a b : String × Nat => b.2 ≤ a.2) _ _ hsorted ?_ hcount
      intro a hamem b hbmem hR hbsome
      have hidx : ∀ x : String × Nat,
          x ∈ (liveIndex st cid).reverse.drop offset →
          x ∈ idxEntries st cid := by
        intro x hx
        have hx1 : x ∈ (liveIndex st cid).reverse :=
          (List.drop_sublist _ _).subset hx
        rw [← hL]
        exact List.mem_reverse.mp hx1
      have hlinka := hinv.2 a (hidx a hamem)
      have hlinkb := hinv.2 b (hidx b hbmem)
      rw [get_message_isSome_iff st a hlinka]
      rw [get_message_isSome_iff st b hlinkb] at hbsome
      omega

/-- Fixture: a verified user with id 1. -/
def alice : UserRec :=
  { id := 1, email := "alice@example.com", first_name := "Alice",
    last_name := "Smith", username := "alice", is_verified := true }

/-- Fixture: a verified user with id 2. -/
def bob : UserRec :=
  { id := 2, email := "bob@example.com", first_name := "Bob",
    last_name := "Jones", username := "bob", is_verified := true }

/-- Fixture: a verified user with id 3, participant of no conversation. -/
def charlie : UserRec :=
  { id := 3, email := "charlie@example.com", first_name := "Charlie",
    last_name := "Brown", username := "charlie", is_verified := true }

/-- Fixture: the conversation X between users 1 and 2. -/
def convX : Conversation :=
  { id := "X", user1 := alice, user2 := bob, created_at := 0, updated_at := 0 }

/-- Fixture: a server state holding only conversation X and an empty
Redis store. -/
def stX : ServerState :=
  { conversations := [convX], messagesMeta := [], redis := emptyRedis }

/-- Fixture: the Redis store after two synchronous messages in
conversation "c". -/
def wst : RedisState :=
  (store_message (store_message emptyRedis "c" "1" "2" "hello").2
    "c" "1" "2" "world").2

/-- C1 counterexample: a typing (and stop_typing) frame from user 3, who
is not a participant of conversation X between users 1 and 2, is not a
silent no-op: a user_typing (resp. user_stop_typing) event is published
to user 1's group, refuting that no event is published to any group. -/
theorem typing_nonparticipant_publishes :
    (handle_typing stX charlie (some "X")).groupSends =
      [(userGroup 1, .user_typing "X" "3" (full_name charlie))] ∧
    (handle_stop_typing stX charlie (some "X")).groupSends =
      [(userGroup 1, .user_stop_typing "X" "3")] := by
  decide

/-- C1 amended: for every typing or stop_typing frame whose conversation
exists but whose sender is not one of that conversation's two
participants, no error frame is sent back to the sender, but the
operation is not a silent no-op: participation is never checked, and the
event is published to user1's group, because the non-participant sender
differs from user1 and so user1 is resolved as the "other" user. -/
theorem typing_nonparticipant_event (st : ServerState) (u : UserRec)
    (cid : String) (conv : Conversation) (hcid : cid ≠ "")
    (hconv : get_conversation st cid = some conv)
    (h1 : conv.user1.id ≠ u.id) (_h2 : conv.user2.id ≠ u.id) :
    handle_typing st u (some cid) =
      { frames := [], groupSends := [(userGroup conv.user1.id,
          .user_typing cid (toString u.id) (full_name u))],
        state := st, closed := false } ∧
    handle_stop_typing st u (some cid) =
      { frames := [], groupSends := [(userGroup conv.user1.id,
          .user_stop_typing cid (toString u.id))],
        state := st, closed := false } := by
  have hbe : (conv.user1.id == u.id) = false := beq_eq_false_iff_ne.mpr h1
  constructor <;>
    simp [handle_typing, handle_stop_typing, truthy, hcid, hconv,
      get_other_user, hbe]

/-- C1 witness: the amended statement evaluated at user 3 and
conversation X. -/
theorem typing_nonparticipant_event_witness :
    handle_typing stX charlie (some "X") =
      { frames := [], groupSends := [(userGroup convX.user1.id,
          .user_typing "X" (toString charlie.id) (full_name charlie))],
        state := stX, closed := false } ∧
    handle_stop_typing stX charlie (some "X") =
      { frames := [], groupSends := [(userGroup convX.user1.id,
          .user_stop_typing "X" (toString charlie.id))],
        state := stX, closed := false } :=
  typing_nonparticipant_event stX charlie "X" convX (by decide) (by decide)
    (by decide) (by decide)

/-- C2: the code evaluated at the failing input.  User 1 connects, then
user 2 connects: both handshakes are accepted, yet each session joins
only its own user group — never a presence group — and the user_online
event that user 2's connect publishes to the group "online_users" is
delivered to no session at all, because no session ever joins that group;
in particular user 1's still-connected session receives nothing. -/
theorem connect_user_online_delivered_to_nobody :
    (connect ⟨[]⟩ (some alice) "1" "chanA").accepted = true ∧
    (connect ⟨[]⟩ (some alice) "1" "chanA").joinedGroups = [userGroup 1] ∧
    (connect (connect ⟨[]⟩ (some alice) "1" "chanA").gateway
        (some bob) "2" "chanB").accepted = true ∧
    group_members (connect (connect ⟨[]⟩ (some alice) "1" "chanA").gateway
        (some bob) "2" "chanB").gateway (userGroup 1) = ["chanA"] ∧
    deliveries (connect (connect ⟨[]⟩ (some alice) "1" "chanA").gateway
        (some bob) "2" "chanB").gateway
      (connect (connect ⟨[]⟩ (some alice) "1" "chanA").gateway
        (some bob) "2" "chanB").groupSends = [] := by
  decide

/-- C3 counterexample: a frame that parses but carries the unknown type
tag "bogus" produces no error frame at all (and the connection stays
open), refuting that an error frame is emitted for unknown tags. -/
theorem receive_unknown_tag_silent :
    (receive stX alice (.frame (some "bogus") none none)).frames = [] ∧
    (receive stX alice (.frame (some "bogus") none none)).closed = false := by
  decide

/-- C3 amended: an unparseable frame gets the error frame "Invalid JSON"
back on the same connection; a frame that parses but carries an unknown
or missing type tag is silently ignored, with no frame sent back; in
both cases nothing is published, the state is unchanged and the
connection remains open. -/
theorem receive_malformed_or_unknown (st : ServerState) (u : UserRec) :
    receive st u .malformed =
      { frames := [.errorFrame "Invalid JSON"], groupSends := [],
        state := st, closed := false } ∧
    ∀ ty conversation_id content, ty ≠ some "send_message" →
      ty ≠ some "typing" → ty ≠ some "stop_typing" →
      receive st u (.frame ty conversation_id content) =
        { frames := [], groupSends := [], state := st, closed := false } := by
  refine ⟨rfl, ?_⟩
  intro ty cid content h1 h2 h3
  simp [receive, beq_eq_false_iff_ne.mpr h1, beq_eq_false_iff_ne.mpr h2,
    beq_eq_false_iff_ne.mpr h3]

/-- C3 witness: the amended statement evaluated on a malformed frame and
on the unknown tag "ping". -/
theorem receive_malformed_or_unknown_witness :
    receive stX alice .malformed =
      { frames := [.errorFrame "Invalid JSON"], groupSends := [],
        state := stX, closed := false } ∧
    receive stX alice (.frame (some "ping") none none) =
      { frames := [], groupSends := [], state := stX, closed := false } :=
  ⟨(receive_malformed_or_unknown stX alice).1,
   (receive_malformed_or_unknown stX alice).2 (some "ping") none none
     (by decide) (by decide) (by decide)⟩

/-- C4: for all distinct users, get-or-create is symmetric in its
arguments: the pair is canonicalized by putting the smaller user id
first, so both argument orders produce the identical result — the same
conversation (and the same created flag and table). -/
theorem get_or_create_conversation_comm (db : List Conversation)
    (u1 u2 : UserRec) (h : u1.id ≠ u2.id) :
    get_or_create_conversation db u1 u2 =
      get_or_create_conversation db u2 u1 := by
  unfold get_or_create_conversation
  rcases Nat.lt_trichotomy u1.id u2.id with hlt | heq | hgt
  · have h1 : ¬ (u1.id > u2.id) := by omega
    have h2 : u2.id > u1.id := hlt
    simp [h1, h2]
  · exact absurd heq h
  · have h1 : u1.id > u2.id := hgt
    have h2 : ¬ (u2.id > u1.id) := by omega
    simp [h1, h2]

/-- C4 witness: both orders of the pair (user 1, user 2) on an empty
table give the identical result. -/
theorem get_or_create_conversation_comm_witness :
    get_or_create_conversation [] alice bob =
      get_or_create_conversation [] bob alice :=
  get_or_create_conversation_comm [] alice bob (by decide)

/-- C5: get-or-create on a self pair fails with SelfConversationError and
creates no conversation row.  The hypothesis — no existing row pairs a
user with itself — is exactly what the `no_self_conversation` check
constraint guarantees of every database state, so the lookup misses and
the insert is rejected, leaving the table unchanged. -/
theorem get_or_create_conversation_self (db : List Conversation)
    (u : UserRec) (hdb : ∀ c ∈ db, c.user1.id ≠ c.user2.id) :
    get_or_create_conversation db u u = (.error .selfConversation, db) := by
  unfold get_or_create_conversation
  have hswap : ¬ (u.id > u.id) := by omega
  have hfind : db.find?
      (fun c => c.user1.id == u.id && c.user2.id == u.id) = none := by
    rw [List.find?_eq_none]
    intro c hc hpc
    simp only [Bool.and_eq_true, beq_iff_eq] at hpc
    exact hdb c hc (by omega)
  simp [hswap, hfind]

/-- C5 witness: the self pair (user 1, user 1) on the empty table. -/
theorem get_or_create_conversation_self_witness :
    get_or_create_conversation [] alice alice =
      (.error .selfConversation, []) :=
  get_or_create_conversation_self [] alice (by simp)

/-- C6 witness: the full-page property evaluated on the concrete store
holding two live messages, with limit 2 and offset 0. -/
theorem get_chat_messages_full_page_witness :
    (get_chat_messages wst "c" 2 0).length = 2 :=
  get_chat_messages_full_page wst "c" 2 0 (by decide)
    (by unfold IndexInv scoreSorted; exact ⟨by decide, by decide⟩)
    (by decide)

/-- C7: round-trip — storing a payload and then getting it by the
returned id, while the TTL has not elapsed, returns a payload whose
content, conversation_id, sender_id and receiver_id equal the stored
values. -/
theorem store_then_get_roundtrip (st : RedisState)
    (conversation_id sender_id receiver_id content : String) (d : Nat)
    (hd : d + 1 < messageTTL) :
    get_message
      (advanceClock
        (store_message st conversation_id sender_id receiver_id content).2 d)
      (store_message st conversation_id sender_id receiver_id content).1 =
      some { id := genId st.nextId, conversation_id := conversation_id,
             sender_id := sender_id, receiver_id := receiver_id,
             content := content, timestamp := st.clock } := by
  have hcond : st.clock + 1 + d < st.clock + messageTTL := by omega
  unfold get_message advanceClock store_message
  simp [lookupA_insertA_self, hcond]

/-- C7 witness: the round-trip on the empty store with content "hello"
and no elapsed time. -/
theorem store_then_get_roundtrip_witness :
    get_message
      (advanceClock (store_message emptyRedis "c" "s" "r" "hello").2 0)
      (store_message emptyRedis "c" "s" "r" "hello").1 =
      some { id := genId 0, conversation_id := "c", sender_id := "s",
             receiver_id := "r", content := "hello", timestamp := 0 } :=
  store_then_get_roundtrip emptyRedis "c" "s" "r" "hello" 0 (by decide)

/-- C8: storing "m1" and then "m2" synchronously from the same sender in
the same conversation, starting from an empty store, makes
get_chat_messages return the two payloads most-recent-first:
["m2", "m1"]. -/
theorem store_store_order (c s r m1 m2 : String) :
    (get_chat_messages
      (store_message (store_message emptyRedis c s r m1).2 c s r m2).2
      c 50 0).map (fun p => p.content) = [m2, m1] := by
  have hne : genId 0 ≠ genId 1 := by decide
  have hbe : (genId 0 == genId 1) = false := beq_eq_false_iff_ne.mpr hne
  have hbe2 : (genId 1 == genId 0) = false :=
    beq_eq_false_iff_ne.mpr (Ne.symm hne)
  have h1 : store_message emptyRedis c s r m1 =
      (genId 0,
        { messages := [(genId 0,
            ({ id := genId 0, conversation_id := c, sender_id := s,
               receiver_id := r, content := m1, timestamp := 0 }, messageTTL))]
          index := [(c, [(genId 0, 0)])]
          indexExpiry := [(c, messageTTL)]
          clock := 1, nextId := 1 }) := rfl
  have h2 : store_message
      { messages := [(genId 0,
          ({ id := genId 0, conversation_id := c, sender_id := s,
             receiver_id := r, content := m1, timestamp := 0 }, messageTTL))]
        index := [(c, [(genId 0, 0)])]
        indexExpiry := [(c, messageTTL)]
        clock := 1, nextId := 1 } c s r m2 =
      (genId 1,
        { messages := [(genId 0,
            ({ id := genId 0, conversation_id := c, sender_id := s,
               receiver_id := r, content := m1, timestamp := 0 }, messageTTL)),
            (genId 1,
            ({ id := genId 1, conversation_id := c, sender_id := s,
               receiver_id := r, content := m2, timestamp := 1 },
              1 + messageTTL))]
          index := [(c, [(genId 0, 0), (genId 1, 1)])]
          indexExpiry := [(c, 1 + messageTTL)]
          clock := 2, nextId := 2 }) := by
    simp [store_message, insertA, lookupA, zadd, zinsert, hne, hbe]
  have h3 : (get_chat_messages
      { messages := [(genId 0,
          ({ id := genId 0, conversation_id := c, sender_id := s,
             receiver_id := r, content := m1, timestamp := 0 }, messageTTL)),
          (genId 1,
          ({ id := genId 1, conversation_id := c, sender_id := s,
             receiver_id := r, content := m2, timestamp := 1 },
            1 + messageTTL))]
        index := [(c, [(genId 0, 0), (genId 1, 1)])]
        indexExpiry := [(c, 1 + messageTTL)]
        clock := 2, nextId := 2 } c 50 0).map (fun p => p.content)
      = [m2, m1] := by
    simp [get_chat_messages, liveIndex, idxEntries, lookupA, zrevrange,
      normIdx, get_message, messageTTL, hne, hbe, hbe2]
  rw [h1]
  dsimp only
  rw [h2]
  dsimp only
  exact h3

/-- C9: a send_message frame whose conversation id is unknown, or whose
conversation exists but whose sender is not one of its two participants,
fails with the corresponding error frame before any write: the state —
Redis payloads, metadata rows, conversation timestamps — is unchanged and
nothing is published to any group. -/
theorem handle_send_message_fail_no_writes (st : ServerState) (u : UserRec)
    (cid content : String) (hcid : cid ≠ "") (hcontent : content ≠ "") :
    (get_conversation st cid = none →
      handle_send_message st u (some cid) (some content) =
        { frames := [.errorFrame "Conversation not found"], groupSends := [],
          state := st, closed := false }) ∧
    (∀ conv, get_conversation st cid = some conv →
      is_user_in_conversation conv u = false →
      handle_send_message st u (some cid) (some content) =
        { frames := [.errorFrame "Access denied"], groupSends := [],
          state := st, closed := false }) := by
  constructor
  · intro h
    simp [handle_send_message, truthy, hcid, hcontent, h]
  · intro conv h hpart
    simp [handle_send_message, truthy, hcid, hcontent, h, hpart]

/-- C9 witness: user 3 sending to the unknown conversation "Y" and to
conversation "X", of which user 3 is not a participant. -/
theorem handle_send_message_fail_no_writes_witness :
    handle_send_message stX charlie (some "Y") (some "hi") =
      { frames := [.errorFrame "Conversation not found"], groupSends := [],
        state := stX, closed := false } ∧
    handle_send_message stX charlie (some "X") (some "hi") =
      { frames := [.errorFrame "Access denied"], groupSends := [],
        state := stX, closed := false } :=
  ⟨(handle_send_message_fail_no_writes stX charlie "Y" "hi"
      (by decide) (by decide)).1 (by decide),
   (handle_send_message_fail_no_writes stX charlie "X" "hi"
      (by decide) (by decide)).2 convX (by decide) (by decide)⟩

/-- C10: a send_message frame whose content field is present but equal to
the empty string is treated exactly like a missing field: the same error
frame is sent back, no write and no publish happens, and the result
coincides with the missing-content result. -/
theorem handle_send_message_empty_content (st : ServerState) (u : UserRec)
    (conversation_id : Option String) :
    handle_send_message st u conversation_id (some "") =
      { frames := [.errorFrame "Missing conversation_id or content"],
        groupSends := [], state := st, closed := false } ∧
    handle_send_message st u conversation_id (some "") =
      handle_send_message st u conversation_id none := by
  constructor <;> simp [handle_send_message, truthy]

end ChatCore
